import Mathlib

/-
Verification of the CSI volume-snapshot data-mover plugin actions.

The Go sources are embedded shallowly: Kubernetes objects become Lean
structures, Go maps become association lists with Go lookup semantics
(a missing key reads as the empty string), nil pointers become Option,
and every cluster call (get / create / patch / delete) is supplied by an
explicit oracle argument, so each action's Execute becomes a pure
function from its inputs and oracles to an outcome plus a trace of the
calls it issued.
-/

namespace VeleroCSI

/-! ## Common velero label utilities -/

def backupNameLabel : String := "velero.io/backup-name"

def restoreNameLabel : String := "velero.io/restore-name"

def dns1123LabelMaxLength : Nat := 63

/-- Embedding of velero `label.GetValidName`: a label value short enough for
the DNS1123 limit is returned unchanged; a longer one is truncated to 57
characters and the first six characters of its sha256 hex digest are
appended.  The digest is a parameter of the embedding (the claims never
depend on its value).  Go slices bytes where Lean takes characters; the
difference is immaterial to the claims, which use short ASCII names. -/
def getValidName (hash : String → String) (lbl : String) : String :=
  if lbl.length ≤ dns1123LabelMaxLength then lbl
  else String.mk (lbl.data.take (dns1123LabelMaxLength - 6) ++ (hash lbl).data.take 6)

/-- Go map read: a missing key yields the zero value, the empty string. -/
def lookupD (m : List (String × String)) (k : String) : String :=
  ((m.lookup k).getD "")

/-- Embedding of Go `strings.TrimSpace`: drop leading and trailing
whitespace.  Go trims Unicode space; the claims only involve ASCII. -/
def trimSpace (s : String) : String :=
  String.mk (((s.data.dropWhile Char.isWhitespace).reverse.dropWhile Char.isWhitespace).reverse)

/-- ObjectMeta as the Deletion Guard uses it: a possibly-nil label map. -/
structure ObjectMeta where
  labels : Option (List (String × String))
deriving DecidableEq, Repr

/-- Embedding of `util.HasBackupLabel`: false when the label map is nil or the
backup name is empty after trimming whitespace; otherwise compares the
backup-name label entry (Go zero value on a miss) with the validated name. -/
def hasBackupLabel (hash : String → String) (o : ObjectMeta) (backupName : String) : Bool :=
  match o.labels with
  | none => false
  | some ls =>
    if (trimSpace backupName).length = 0 then false
    else lookupD ls backupNameLabel == getValidName hash backupName

/-! ## Deletion Guard (`VolumeSnapshotContentDeleteItemAction.Execute`) -/

structure VolumeSnapshotContentStatus where
  snapshotHandle : Option String
deriving DecidableEq, Repr

/-- The fields of a v1 VolumeSnapshotContent that the Deletion Guard touches.
`status` and `status.snapshotHandle` are pointers in Go, hence Options. -/
structure SnapCont where
  name : String
  objectMeta : ObjectMeta
  status : Option VolumeSnapshotContentStatus
deriving DecidableEq, Repr

/-- Result of one cluster API call, as the Go code discriminates it:
success, a NotFound error, or any other error. -/
inductive APIResult
  | ok
  | notFound
  | otherError
deriving DecidableEq, Repr

/-- The two mutating calls the Deletion Guard can issue. -/
inductive DeleteCall
  | patchDeletionPolicy (vscName : String)
  | deleteContent (vscName : String)
deriving DecidableEq, Repr

/-- Outcome of `Execute`: a nil error, a non-nil error, or a Go runtime
panic (nil-pointer dereference). -/
inductive ExecOutcome
  | success
  | failure
  | panicked
deriving DecidableEq, Repr

/-- Embedding of `VolumeSnapshotContentDeleteItemAction.Execute`.
Mirrors the source line by line: skip (success, no calls) unless the content
carries the triggering backup's label; obtain clients; patch the deletion
policy to Delete (`util.SetVolumeSnapshotContentDeletionPolicy`); on a
NotFound patch error log a warning that dereferences
`*snapCont.Status.SnapshotHandle` (panicking when status or the handle is
nil) and return success; on any other patch error return it; then delete the
content, tolerating NotFound. -/
def deleteExecute (hash : String → String) (snapCont : SnapCont) (backupName : String)
    (getClientsOk : Bool) (patchResult deleteResult : APIResult) :
    ExecOutcome × List DeleteCall :=
  if ¬ hasBackupLabel hash snapCont.objectMeta backupName then
    (.success, [])
  else if ¬ getClientsOk then
    (.failure, [])
  else
    match patchResult with
    | .notFound =>
      match snapCont.status with
      | none => (.panicked, [.patchDeletionPolicy snapCont.name])
      | some st =>
        match st.snapshotHandle with
        | none => (.panicked, [.patchDeletionPolicy snapCont.name])
        | some _ => (.success, [.patchDeletionPolicy snapCont.name])
    | .otherError => (.failure, [.patchDeletionPolicy snapCont.name])
    | .ok =>
      match deleteResult with
      | .otherError =>
        (.failure, [.patchDeletionPolicy snapCont.name, .deleteContent snapCont.name])
      | _ =>
        (.success, [.patchDeletionPolicy snapCont.name, .deleteContent snapCont.name])

/-! ## Supporting lemmas -/

theorem getValidName_ne_empty (hash : String → String) (s : String)
    (h : (trimSpace s).length ≠ 0) : getValidName hash s ≠ "" := by
  unfold getValidName dns1123LabelMaxLength
  split
  · intro hcontra
    subst hcontra
    exact h (by decide)
  · rename_i hlen
    intro hcontra
    have hd : (String.mk (s.data.take (63 - 6) ++ (hash s).data.take 6)).data
        = ("" : String).data := congrArg String.data hcontra
    simp only [String.data] at hd
    have h57 : (s.data.take (63 - 6)).length = 63 - 6 := by
      have h1 : 63 < s.length := Nat.lt_of_not_le hlen
      have h2 : s.length = s.data.length := rfl
      rw [List.length_take]
      omega
    have hz : (s.data.take (63 - 6) ++ (hash s).data.take 6).length = 0 := by
      rw [hd]; rfl
    rw [List.length_append, h57] at hz
    simp at hz

theorem hasBackupLabel_eq_true_iff (hash : String → String) (o : ObjectMeta)
    (backupName : String) :
    hasBackupLabel hash o backupName = true ↔
      ∃ ls, o.labels = some ls ∧ (trimSpace backupName).length ≠ 0 ∧
        ls.lookup backupNameLabel = some (getValidName hash backupName) := by
  unfold hasBackupLabel
  cases ho : o.labels with
  | none => simp
  | some ls =>
    simp only [Option.some.injEq]
    split
    · rename_i ht
      simp only [Bool.false_eq_true, false_iff]
      rintro ⟨ls1, rfl, hne, _⟩
      exact hne ht
    · rename_i ht
      unfold lookupD
      cases hl : ls.lookup backupNameLabel with
      | none =>
        simp only [Option.getD_none, beq_iff_eq, Bool.false_eq_true]
        constructor
        · intro he
          exact absurd he.symm (getValidName_ne_empty hash backupName ht)
        · rintro ⟨ls1, rfl, _, hlk⟩
          rw [hl] at hlk
          exact Option.noConfusion hlk
      | some v =>
        simp only [Option.getD_some, beq_iff_eq]
        constructor
        · intro he
          exact ⟨ls, rfl, ht, by rw [hl, he]⟩
        · rintro ⟨ls1, rfl, _, hlk⟩
          rw [hl] at hlk
          exact Option.some.inj hlk

/-- C1: the Deletion Guard deletes a SnapshotContent only when the content's
labels map the backup-name label key to the validated backup name of a
non-blank backup; when the content has no labels, lacks a matching entry for
that key, or the backup name is empty or whitespace-only, Execute returns
success without issuing any patch or delete call. -/
theorem deletionGuard_ownership (hash : String → String) (sc : SnapCont)
    (backupName : String) (clientsOk : Bool) (patchR deleteR : APIResult) :
    (DeleteCall.deleteContent sc.name ∈
        (deleteExecute hash sc backupName clientsOk patchR deleteR).2 →
      ∃ ls, sc.objectMeta.labels = some ls ∧
        ls.lookup backupNameLabel = some (getValidName hash backupName) ∧
        (trimSpace backupName).length ≠ 0) ∧
    ((sc.objectMeta.labels = none ∨
      (∀ ls, sc.objectMeta.labels = some ls →
        ls.lookup backupNameLabel ≠ some (getValidName hash backupName)) ∨
      (trimSpace backupName).length = 0) →
      deleteExecute hash sc backupName clientsOk patchR deleteR = (.success, [])) := by
  constructor
  · intro hmem
    by_cases hb : hasBackupLabel hash sc.objectMeta backupName = true
    · obtain ⟨ls, h1, h2, h3⟩ := (hasBackupLabel_eq_true_iff hash sc.objectMeta backupName).mp hb
      exact ⟨ls, h1, h3, h2⟩
    · exfalso
      unfold deleteExecute at hmem
      rw [if_pos hb] at hmem
      simp at hmem
  · intro hcase
    have hb : ¬ hasBackupLabel hash sc.objectMeta backupName = true := by
      intro hb
      obtain ⟨ls, h1, h2, h3⟩ := (hasBackupLabel_eq_true_iff hash sc.objectMeta backupName).mp hb
      rcases hcase with hnone | hmiss | hblank
      · rw [h1] at hnone; exact Option.noConfusion hnone
      · exact hmiss ls h1 h3
      · exact h2 hblank
    unfold deleteExecute
    rw [if_pos hb]

/-- C1 witness: a content whose only label entry is the backup-name label for
a different backup is skipped with success and no calls. -/
theorem deletionGuard_ownership_witness :
    deleteExecute (fun _ => "") ⟨"vsc-w1", ⟨some [(backupNameLabel, "other-backup")]⟩, none⟩
      "backup-1" true APIResult.ok APIResult.ok = (.success, []) := by
  apply (deletionGuard_ownership (fun _ => "") ⟨"vsc-w1", ⟨some [(backupNameLabel, "other-backup")]⟩, none⟩
      "backup-1" true APIResult.ok APIResult.ok).2
  right; left
  intro ls hls
  have hEq : [(backupNameLabel, "other-backup")] = ls := Option.some.inj hls
  subst hEq
  decide

/-- C2 counterexample content: carries the triggering backup's label but has
a nil status, so the NotFound warning path dereferences a nil pointer. -/
def c2Content : SnapCont :=
  { name := "vsc-1", objectMeta := ⟨some [(backupNameLabel, "backup-1")]⟩, status := none }

/-- C2 counterexample: the claim requires that whenever the deletion-policy
patch fails with NotFound, Execute issues no delete call and returns
success.  On this content the patch fails NotFound, no delete call is issued,
but Execute panics (nil status dereference in the warning) rather than
returning success. -/
theorem deletionGuard_patchNotFound_cex :
    deleteExecute (fun _ => "") c2Content "backup-1" true APIResult.notFound APIResult.ok =
      (ExecOutcome.panicked, [DeleteCall.patchDeletionPolicy "vsc-1"]) ∧
    ExecOutcome.panicked ≠ ExecOutcome.success := by
  constructor
  · decide
  · decide

/-- C2 amended: for every content the Deletion Guard removes, the
deletion-policy patch call precedes the delete call; whenever the issued
patch fails with NotFound no delete call is issued, and Execute returns
success provided the content's status and snapshot handle are non-nil
(otherwise the warning path panics on the nil dereference). -/
theorem deletionGuard_flip_then_delete (hash : String → String) (sc : SnapCont)
    (backupName : String) (clientsOk : Bool) (patchR deleteR : APIResult) :
    (DeleteCall.deleteContent sc.name ∈
        (deleteExecute hash sc backupName clientsOk patchR deleteR).2 →
      (deleteExecute hash sc backupName clientsOk patchR deleteR).2 =
        [DeleteCall.patchDeletionPolicy sc.name, DeleteCall.deleteContent sc.name]) ∧
    (patchR = APIResult.notFound →
      DeleteCall.patchDeletionPolicy sc.name ∈
        (deleteExecute hash sc backupName clientsOk patchR deleteR).2 →
      DeleteCall.deleteContent sc.name ∉
        (deleteExecute hash sc backupName clientsOk patchR deleteR).2 ∧
      (∀ st h, sc.status = some st → st.snapshotHandle = some h →
        (deleteExecute hash sc backupName clientsOk patchR deleteR).1 = .success)) := by
  by_cases hb : hasBackupLabel hash sc.objectMeta backupName = true
  · cases clientsOk with
    | false => simp [deleteExecute, hb]
    | true =>
      cases patchR with
      | ok =>
        refine ⟨fun _ => ?_, fun hp => by cases hp⟩
        cases deleteR <;> simp [deleteExecute, hb]
      | otherError =>
        refine ⟨fun hmem => ?_, fun hp => by cases hp⟩
        simp [deleteExecute, hb] at hmem
      | notFound =>
        refine ⟨fun hmem => ?_, fun _ _ => ?_⟩
        · exfalso
          cases hst : sc.status with
          | none => simp [deleteExecute, hb, hst] at hmem
          | some st =>
            cases hh : st.snapshotHandle with
            | none => simp [deleteExecute, hb, hst, hh] at hmem
            | some v => simp [deleteExecute, hb, hst, hh] at hmem
        · constructor
          · intro hmem
            cases hst : sc.status with
            | none => simp [deleteExecute, hb, hst] at hmem
            | some st =>
              cases hh : st.snapshotHandle with
              | none => simp [deleteExecute, hb, hst, hh] at hmem
              | some v => simp [deleteExecute, hb, hst, hh] at hmem
          · intro st h hst hh
            simp [deleteExecute, hb, hst, hh]
  · refine ⟨fun hmem => ?_, fun _ hmem => ?_⟩ <;>
    · exfalso
      unfold deleteExecute at hmem
      rw [if_pos hb] at hmem
      simp at hmem

/-- C2 amended witness: on a labelled content with a live status and handle,
the patch failing NotFound yields success with only the patch call issued. -/
theorem deletionGuard_flip_then_delete_witness :
    DeleteCall.deleteContent "vsc-2" ∉
      (deleteExecute (fun _ => "") ⟨"vsc-2", ⟨some [(backupNameLabel, "backup-1")]⟩,
        some ⟨some "handle-1"⟩⟩ "backup-1" true APIResult.notFound APIResult.ok).2 ∧
    (deleteExecute (fun _ => "") ⟨"vsc-2", ⟨some [(backupNameLabel, "backup-1")]⟩,
        some ⟨some "handle-1"⟩⟩ "backup-1" true APIResult.notFound APIResult.ok).1 = .success := by
  have h := (deletionGuard_flip_then_delete (fun _ => "")
    ⟨"vsc-2", ⟨some [(backupNameLabel, "backup-1")]⟩, some ⟨some "handle-1"⟩⟩
    "backup-1" true APIResult.notFound APIResult.ok).2 rfl (by decide)
  exact ⟨h.1, h.2 ⟨some "handle-1"⟩ "handle-1" rfl rfl⟩

/-- C3: once the Deletion Guard reaches the delete call, a NotFound delete
error is tolerated as success while any other delete error is returned. -/
theorem deletionGuard_delete_notFound_tolerated (hash : String → String) (sc : SnapCont)
    (backupName : String) (clientsOk : Bool) (patchR deleteR : APIResult)
    (hb : hasBackupLabel hash sc.objectMeta backupName = true)
    (hc : clientsOk = true) (hp : patchR = APIResult.ok) :
    (deleteR = APIResult.notFound →
      deleteExecute hash sc backupName clientsOk patchR deleteR =
        (.success, [DeleteCall.patchDeletionPolicy sc.name, DeleteCall.deleteContent sc.name])) ∧
    (deleteR = APIResult.otherError →
      (deleteExecute hash sc backupName clientsOk patchR deleteR).1 = .failure) := by
  subst hc hp
  constructor <;> intro hd <;> subst hd <;> simp [deleteExecute, hb]

/-- C3 witness: concrete labelled content, successful patch, NotFound delete. -/
theorem deletionGuard_delete_notFound_tolerated_witness :
    deleteExecute (fun _ => "") ⟨"vsc-3", ⟨some [(backupNameLabel, "backup-1")]⟩,
        some ⟨some "handle-3"⟩⟩ "backup-1" true APIResult.ok APIResult.notFound =
      (.success, [DeleteCall.patchDeletionPolicy "vsc-3", DeleteCall.deleteContent "vsc-3"]) :=
  (deletionGuard_delete_notFound_tolerated (fun _ => "")
    ⟨"vsc-3", ⟨some [(backupNameLabel, "backup-1")]⟩, some ⟨some "handle-3"⟩⟩
    "backup-1" true APIResult.ok APIResult.notFound (by decide) rfl rfl).1 rfl

/-- C10: when the deletion-policy patch fails with NotFound on a labelled
content whose status or snapshot handle is nil, the warning path dereferences
the nil pointer and Execute panics instead of returning success. -/
theorem deletionGuard_nil_handle_panics (hash : String → String) (sc : SnapCont)
    (backupName : String) (clientsOk : Bool) (patchR deleteR : APIResult)
    (hb : hasBackupLabel hash sc.objectMeta backupName = true)
    (hc : clientsOk = true) (hp : patchR = APIResult.notFound)
    (hnil : sc.status = none ∨ ∃ st, sc.status = some st ∧ st.snapshotHandle = none) :
    (deleteExecute hash sc backupName clientsOk patchR deleteR).1 = .panicked := by
  subst hc hp
  rcases hnil with hst | ⟨st, hst, hh⟩
  · simp [deleteExecute, hb, hst]
  · simp [deleteExecute, hb, hst, hh]

/-- C10 witness: concrete labelled content with nil status panics on the
NotFound patch path. -/
theorem deletionGuard_nil_handle_panics_witness :
    (deleteExecute (fun _ => "") ⟨"vsc-10", ⟨some [(backupNameLabel, "backup-1")]⟩, none⟩
      "backup-1" true APIResult.notFound APIResult.ok).1 = .panicked :=
  deletionGuard_nil_handle_panics (fun _ => "")
    ⟨"vsc-10", ⟨some [(backupNameLabel, "backup-1")]⟩, none⟩
    "backup-1" true APIResult.notFound APIResult.ok (by decide) rfl rfl (Or.inl rfl)

/-! ## Association-list helpers shared by the embeddings (Go map writes) -/

/-- Go map write: replace the value when the key is present, append otherwise. -/
def setKV {α : Type} (m : List (String × α)) (k : String) (v : α) : List (String × α) :=
  if (m.lookup k).isSome then
    m.map (fun kv => if kv.1 = k then (k, v) else kv)
  else m ++ [(k, v)]

theorem lookup_setKV {α : Type} (m : List (String × α)) (k : String) (v : α) :
    (setKV m k v).lookup k = some v := by
  induction m with
  | nil => simp [setKV]
  | cons a t ih =>
    obtain ⟨a1, a2⟩ := a
    by_cases hak : a1 = k
    · subst hak
      simp [setKV, List.lookup]
    · have hbeq : (k == a1) = false := by
        simp only [beq_eq_false_iff_ne, ne_eq]
        exact fun he => hak he.symm
      unfold setKV at ih ⊢
      simp only [List.lookup, hbeq, List.map_cons, List.cons_append, hak, if_false]
      split
      · rename_i hsome
        simp only [List.lookup, hbeq]
        rw [if_pos hsome] at ih
        exact ih
      · rename_i hnone
        simp only [List.lookup, hbeq]
        rw [if_neg hnone] at ih
        exact ih

/-! ## PVC rewrite on restore (`PVCRestoreItemAction`, part_002) -/

def annBindCompleted : String := "pv.kubernetes.io/bind-completed"

def annBoundByController : String := "pv.kubernetes.io/bound-by-controller"

def annStorageProvisioner : String := "volume.beta.kubernetes.io/storage-provisioner"

def annSelectedNode : String := "volume.kubernetes.io/selected-node"

/-- Embedding of `util.Contains`: linear scan for an exact string match. -/
def utilContains : List String → String → Bool
  | [], _ => false
  | i :: rest, key => if i == key then true else utilContains rest key

structure PVCData where
  name : String
  size : String
deriving DecidableEq, Repr

structure DMBRef where
  backedUpPVCData : PVCData
  resticRepository : String
deriving DecidableEq, Repr

structure DataMoverRestoreSpec where
  resticSecretRefName : String
  dataMoverBackupref : DMBRef
  protectedNamespace : String
deriving DecidableEq, Repr

structure DataMoverRestore where
  name : String
  ns : String
  spec : DataMoverRestoreSpec
deriving DecidableEq, Repr

structure LatestImageRef where
  name : String
deriving DecidableEq, Repr

structure ReplicationDestinationTrigger where
  manual : String
deriving DecidableEq, Repr

structure ReplicationDestinationStatus where
  lastSyncTime : Option String
  lastManualSync : String
  latestImage : Option LatestImageRef
deriving DecidableEq, Repr

structure ReplicationDestinationSpec where
  trigger : Option ReplicationDestinationTrigger
deriving DecidableEq, Repr

structure ReplicationDestination where
  name : String
  spec : ReplicationDestinationSpec
  status : Option ReplicationDestinationStatus
deriving DecidableEq, Repr

structure TypedLocalObjectReference where
  apiGroup : Option String
  kind : String
  name : String
deriving DecidableEq, Repr

structure PVCSpec where
  volumeName : String
  dataSource : Option TypedLocalObjectReference
  requests : Option (List (String × Int))
deriving DecidableEq, Repr

structure PersistentVolumeClaim where
  name : String
  ns : String
  annotations : Option (List (String × String))
  spec : PVCSpec
deriving DecidableEq, Repr

def resourceStorage : String := "storage"

def snapshotAPIGroup : String := "snapshot.storage.k8s.io"

/-- Embedding of `removePVCAnnotations`: a nil annotation map is replaced by
a fresh empty one (and the function returns); otherwise every key found in
the removal list is deleted from the map. -/
def removePVCAnnotations (ann : Option (List (String × String))) (remove : List String) :
    Option (List (String × String)) :=
  match ann with
  | none => some []
  | some m => some (m.filter (fun kv => ! utilContains remove kv.1))

/-- Embedding of `resetPVCSpec`: clear the volume name (the reference to the
PV) and point the claim's data source at the named VolumeSnapshot in the
snapshot API group. -/
def resetPVCSpec (spec : PVCSpec) (vsName : String) : PVCSpec :=
  { spec with
    volumeName := ""
    dataSource := some { apiGroup := some snapshotAPIGroup, kind := "VolumeSnapshot", name := vsName } }

/-- Embedding of `setPVCStorageResourceRequest`: storage quantities are
modelled as integers (`resource.Quantity.Cmp` is a total order).  A nil
request map becomes an empty one; the storage request is overwritten with
the restore size exactly when it is absent or strictly smaller. -/
def setPVCStorageResourceRequest (requests : Option (List (String × Int))) (restoreSize : Int) :
    List (String × Int) :=
  let reqs := requests.getD []
  match reqs.lookup resourceStorage with
  | none => setKV reqs resourceStorage restoreSize
  | some storageReq =>
    if storageReq < restoreSize then setKV reqs resourceStorage restoreSize else reqs

/-- Embedding of the mover-restore request name computed in
`PVCRestoreItemAction.Execute`: the fixed dmr- prefix plus the claim name. -/
def dataMoverRestoreNameForPVC (pvcName : String) : String := "dmr-" ++ pvcName

/-- Embedding of the replication-destination name that
`PVCRestoreItemAction.Execute` looks up: the source hardcodes this value
(flagged there with a TODO to change the name) instead of deriving it from
the mover-restore request's name. -/
def pvcRepDestLookupName : String := "dmr-mssql-pvc-rep-dest"

/-- Outcome of a restore item action on a claim: a rewritten claim, a
returned error, or a Go runtime panic (nil dereference or
`resource.MustParse` failure). -/
inductive PVCRestoreResult
  | ok (pvc : PersistentVolumeClaim)
  | errored
  | panicked
deriving DecidableEq, Repr

/-- First step of `PVCRestoreItemAction.Execute`: strip the four
provisioner-internal annotations. -/
def pvcAfterRemoveAnn (pvc : PersistentVolumeClaim) : PersistentVolumeClaim :=
  { pvc with
    annotations := removePVCAnnotations pvc.annotations
      [annBindCompleted, annBoundByController, annStorageProvisioner, annSelectedNode] }

/-- Second step of `PVCRestoreItemAction.Execute`: apply the restore's
cross-namespace mapping to the claim's namespace. -/
def pvcAfterAnnAndNS (namespaceMapping : List (String × String))
    (pvc : PersistentVolumeClaim) : PersistentVolumeClaim :=
  match namespaceMapping.lookup (pvcAfterRemoveAnn pvc).ns with
  | some v => { pvcAfterRemoveAnn pvc with ns := v }
  | none => pvcAfterRemoveAnn pvc

/-- Second half of `PVCRestoreItemAction.Execute`, applied to the claim after
annotation stripping and namespace mapping: fetch the mover-restore request
named dmr- plus the claim name in the claim's namespace, fetch the
replication destination under the hardcoded name in the request's protected
namespace, read the latest-image snapshot name (nil dereference panics),
parse the recorded source size (`resource.MustParse` panics on failure),
raise the storage request, and reset the claim spec onto the snapshot. -/
def pvcRestoreExecuteCore (getDMR : String → String → Option DataMoverRestore)
    (getRepDest : String → String → Option ReplicationDestination)
    (parseQuantity : String → Option Int)
    (dmClientOk rdClientOk : Bool)
    (pvc2 : PersistentVolumeClaim) : PVCRestoreResult :=
  if dmClientOk then
    match getDMR pvc2.ns (dataMoverRestoreNameForPVC pvc2.name) with
    | none => .errored
    | some dmr =>
      if rdClientOk then
        match getRepDest dmr.spec.protectedNamespace pvcRepDestLookupName with
        | none => .errored
        | some repDestination =>
          match repDestination.status with
          | none => .panicked
          | some st =>
            match st.latestImage with
            | none => .panicked
            | some li =>
              match parseQuantity dmr.spec.dataMoverBackupref.backedUpPVCData.size with
              | none => .panicked
              | some restoreSize =>
                .ok { pvc2 with
                  spec := resetPVCSpec
                    { pvc2.spec with
                      requests :=
                        some (setPVCStorageResourceRequest pvc2.spec.requests restoreSize) }
                    li.name }
      else .errored
  else .errored

/-- Embedding of `PVCRestoreItemAction.Execute` as a whole. -/
def pvcRestoreExecute (getDMR : String → String → Option DataMoverRestore)
    (getRepDest : String → String → Option ReplicationDestination)
    (parseQuantity : String → Option Int)
    (namespaceMapping : List (String × String))
    (dmClientOk rdClientOk : Bool)
    (pvc : PersistentVolumeClaim) : PVCRestoreResult :=
  pvcRestoreExecuteCore getDMR getRepDest parseQuantity dmClientOk rdClientOk
    (pvcAfterAnnAndNS namespaceMapping pvc)

theorem lookup_filter_removed (m : List (String × String)) (remove : List String) (k : String)
    (hk : utilContains remove k = true) :
    (m.filter (fun kv => ! utilContains remove kv.1)).lookup k = none := by
  induction m with
  | nil => simp
  | cons a t ih =>
    obtain ⟨a1, a2⟩ := a
    by_cases hc : utilContains remove a1 = true
    · simpa [List.filter_cons, hc] using ih
    · have hne : (k == a1) = false := by
        simp only [beq_eq_false_iff_ne, ne_eq]
        intro he
        rw [he] at hk
        exact hc hk
      simp only [List.filter_cons, hc, Bool.not_false, if_true]
      simpa [List.lookup, hne] using ih

theorem lookup_filter_kept (m : List (String × String)) (remove : List String) (k : String)
    (hk : utilContains remove k = false) :
    (m.filter (fun kv => ! utilContains remove kv.1)).lookup k = m.lookup k := by
  induction m with
  | nil => simp
  | cons a t ih =>
    obtain ⟨a1, a2⟩ := a
    by_cases hka : k = a1
    · subst hka
      simp [List.filter_cons, hk, List.lookup]
    · have hne : (k == a1) = false := by
        simpa [beq_eq_false_iff_ne, ne_eq] using hka
      cases hc : utilContains remove a1 with
      | true =>
        simp only [List.filter_cons, hc, Bool.not_true, if_false]
        simpa [List.lookup, hne] using ih
      | false =>
        simp only [List.filter_cons, hc, Bool.not_false, if_true]
        simpa [List.lookup, hne] using ih

/-- C4: the rewritten claim's storage request is the maximum of the incoming
request and the recorded source size: it becomes the restore size when the
request is absent or strictly smaller, and the request map is left entirely
unchanged when the request is at least the restore size. -/
theorem pvcStorage_request_max (requests : Option (List (String × Int))) (y : Int) :
    ((setPVCStorageResourceRequest requests y).lookup resourceStorage =
      some (match (requests.getD []).lookup resourceStorage with
            | none => y
            | some x => max x y)) ∧
    (∀ x, (requests.getD []).lookup resourceStorage = some x → y ≤ x →
      setPVCStorageResourceRequest requests y = requests.getD []) := by
  constructor
  · simp only [setPVCStorageResourceRequest]
    cases hl : (requests.getD []).lookup resourceStorage with
    | none => simpa [hl] using lookup_setKV (requests.getD []) resourceStorage y
    | some x =>
      simp only [hl]
      by_cases hlt : x < y
      · rw [if_pos hlt]
        rw [lookup_setKV]
        rw [max_eq_right (le_of_lt hlt)]
      · rw [if_neg hlt]
        rw [hl, max_eq_left (le_of_not_lt hlt)]
  · intro x hx hyx
    simp only [setPVCStorageResourceRequest, hx]
    rw [if_neg (not_lt.mpr hyx)]

/-- C4 witness: the spec's two examples, requesting 5 with recorded size 8
(raised to 8) and requesting 10 with recorded size 8 (unchanged). -/
theorem pvcStorage_request_max_witness :
    (setPVCStorageResourceRequest (some [(resourceStorage, 5)]) 8).lookup resourceStorage =
      some 8 ∧
    setPVCStorageResourceRequest (some [(resourceStorage, 10)]) 8 = [(resourceStorage, 10)] := by
  constructor
  · have h := (pvcStorage_request_max (some [(resourceStorage, 5)]) 8).1
    simpa using h
  · have h := (pvcStorage_request_max (some [(resourceStorage, 10)]) 8).2 10 (by simp) (by norm_num)
    simpa using h

theorem pvcRestoreExecuteCore_ok (getDMR : String → String → Option DataMoverRestore)
    (getRepDest : String → String → Option ReplicationDestination)
    (parseQuantity : String → Option Int) (dmClientOk rdClientOk : Bool)
    (pvc2 out : PersistentVolumeClaim)
    (h : pvcRestoreExecuteCore getDMR getRepDest parseQuantity dmClientOk rdClientOk pvc2 =
      .ok out) :
    out.name = pvc2.name ∧ out.ns = pvc2.ns ∧ out.annotations = pvc2.annotations ∧
    out.spec.volumeName = "" ∧
    ∃ dmr rd st li,
      getDMR pvc2.ns (dataMoverRestoreNameForPVC pvc2.name) = some dmr ∧
      getRepDest dmr.spec.protectedNamespace pvcRepDestLookupName = some rd ∧
      rd.status = some st ∧ st.latestImage = some li ∧
      out.spec.dataSource =
        some { apiGroup := some snapshotAPIGroup, kind := "VolumeSnapshot", name := li.name } ∧
      ∃ restoreSize,
        parseQuantity dmr.spec.dataMoverBackupref.backedUpPVCData.size = some restoreSize ∧
        out.spec.requests =
          some (setPVCStorageResourceRequest pvc2.spec.requests restoreSize) := by
  unfold pvcRestoreExecuteCore at h
  cases dmClientOk with
  | false => simp at h
  | true =>
    rw [if_pos rfl] at h
    cases hdmr : getDMR pvc2.ns (dataMoverRestoreNameForPVC pvc2.name) with
    | none => simp [hdmr] at h
    | some dmr =>
      simp only [hdmr] at h
      cases rdClientOk with
      | false => simp at h
      | true =>
        rw [if_pos rfl] at h
        cases hrd : getRepDest dmr.spec.protectedNamespace pvcRepDestLookupName with
        | none => simp [hrd] at h
        | some rd =>
          simp only [hrd] at h
          cases hst : rd.status with
          | none => simp [hst] at h
          | some st =>
            simp only [hst] at h
            cases hli : st.latestImage with
            | none => simp [hli] at h
            | some li =>
              simp only [hli] at h
              cases hq : parseQuantity dmr.spec.dataMoverBackupref.backedUpPVCData.size with
              | none => simp [hq] at h
              | some restoreSize =>
                simp only [hq, PVCRestoreResult.ok.injEq] at h
                subst h
                exact ⟨rfl, rfl, rfl, rfl, dmr, rd, st, li, rfl, hrd, hst, hli, rfl,
                  restoreSize, hq, rfl⟩

/-- C5: on a successfully rewritten claim with a completed
mover-restore/replication-destination chain, exactly the four
provisioner-internal annotations are removed (every other annotation key
reads as before), the claim's volume name is cleared, and the data source
is set to the VolumeSnapshot named by the replication destination's latest
image. -/
theorem pvcRestore_rewrite (getDMR : String → String → Option DataMoverRestore)
    (getRepDest : String → String → Option ReplicationDestination)
    (parseQuantity : String → Option Int) (namespaceMapping : List (String × String))
    (dmClientOk rdClientOk : Bool) (pvc out : PersistentVolumeClaim)
    (h : pvcRestoreExecute getDMR getRepDest parseQuantity namespaceMapping
      dmClientOk rdClientOk pvc = .ok out) :
    ((out.annotations.getD []).lookup annBindCompleted = none ∧
     (out.annotations.getD []).lookup annBoundByController = none ∧
     (out.annotations.getD []).lookup annStorageProvisioner = none ∧
     (out.annotations.getD []).lookup annSelectedNode = none) ∧
    (∀ k, utilContains
        [annBindCompleted, annBoundByController, annStorageProvisioner, annSelectedNode] k =
          false →
      (out.annotations.getD []).lookup k = (pvc.annotations.getD []).lookup k) ∧
    out.spec.volumeName = "" ∧
    (∃ dmr rd st li,
      getDMR out.ns (dataMoverRestoreNameForPVC pvc.name) = some dmr ∧
      getRepDest dmr.spec.protectedNamespace pvcRepDestLookupName = some rd ∧
      rd.status = some st ∧ st.latestImage = some li ∧
      out.spec.dataSource =
        some { apiGroup := some snapshotAPIGroup, kind := "VolumeSnapshot", name := li.name }) := by
  unfold pvcRestoreExecute at h
  obtain ⟨hname, hns, hann, hvol, dmr, rd, st, li, hdmr, hrd, hst, hli, hds, _⟩ :=
    pvcRestoreExecuteCore_ok _ _ _ _ _ _ _ h
  have hname2 : (pvcAfterAnnAndNS namespaceMapping pvc).name = pvc.name := by
    unfold pvcAfterAnnAndNS
    cases namespaceMapping.lookup (pvcAfterRemoveAnn pvc).ns <;> rfl
  have hann2 : (pvcAfterAnnAndNS namespaceMapping pvc).annotations =
      removePVCAnnotations pvc.annotations
        [annBindCompleted, annBoundByController, annStorageProvisioner, annSelectedNode] := by
    unfold pvcAfterAnnAndNS
    cases namespaceMapping.lookup (pvcAfterRemoveAnn pvc).ns <;> rfl
  have houtAnn : out.annotations = removePVCAnnotations pvc.annotations
      [annBindCompleted, annBoundByController, annStorageProvisioner, annSelectedNode] := by
    rw [hann, hann2]
  refine ⟨?_, ?_, hvol, dmr, rd, st, li, ?_, hrd, hst, hli, hds⟩
  · cases hpa : pvc.annotations with
    | none => rw [houtAnn, hpa]; simp [removePVCAnnotations]
    | some m =>
      rw [houtAnn, hpa]
      simp only [removePVCAnnotations, Option.getD_some]
      exact ⟨lookup_filter_removed m _ _ (by decide), lookup_filter_removed m _ _ (by decide),
        lookup_filter_removed m _ _ (by decide), lookup_filter_removed m _ _ (by decide)⟩
  · intro k hk
    cases hpa : pvc.annotations with
    | none => rw [houtAnn, hpa]; simp [removePVCAnnotations]
    | some m =>
      rw [houtAnn, hpa]
      simp only [removePVCAnnotations, Option.getD_some]
      exact lookup_filter_kept m _ k hk
  · rw [hname2] at hdmr
    rw [hns]
    exact hdmr

/-! ## Static Binding Rewriter (the two VolumeSnapshot restore actions) -/

def deletionPolicyRetain : String := "Retain"

def deletionPolicyDelete : String := "Delete"

/-- Modelled from the spec: the fixed annotation key `util.CSIDriverNameAnnotation`
recording the CSI driver name on a backed-up snapshot (the util constants
file is not among the sources; the claims treat the key as opaque). -/
def csiDriverNameAnnKey : String := "velero.io/csi-driver-name"

/-- Modelled from the spec: the fixed annotation key `util.CSIVSCDeletionPolicy`
recording the deletion policy of a snapshot's content (the util constants
file is not among the sources; the claims treat the key as opaque). -/
def csiVSCDeletionPolicyKey : String := "velero.io/csi-vsc-deletion-policy"

structure VolumeSnapshotSourceModel where
  persistentVolumeClaimName : Option String
  volumeSnapshotContentName : Option String
deriving DecidableEq, Repr

structure VolumeSnapshotSpecModel where
  source : VolumeSnapshotSourceModel
deriving DecidableEq, Repr

structure VolumeSnapshotModel where
  name : String
  ns : String
  annotations : Option (List (String × String))
  spec : VolumeSnapshotSpecModel
deriving DecidableEq, Repr

/-- Embedding of `resetVolumeSnapshotSpecForRestore`: drop the claim source
and point the snapshot at the named content instead. -/
def resetVolumeSnapshotSpecForRestore (spec : VolumeSnapshotSpecModel) (vscName : String) :
    VolumeSnapshotSpecModel :=
  { spec with source :=
      { persistentVolumeClaimName := none, volumeSnapshotContentName := some vscName } }

/-- Embedding of `resetVolumeSnapshotAnnotation` (part_001): force the
deletion-policy annotation to Retain.  (The Go code writes into the map in
place; its only call site has already read a key from the map, so the map
is non-nil there.) -/
def resetVolumeSnapshotAnnotations (ann : Option (List (String × String))) :
    Option (List (String × String)) :=
  some (setKV (ann.getD []) csiVSCDeletionPolicyKey deletionPolicyRetain)

structure VolumeSnapshotRestoreStatusModel where
  snapshotHandle : String
deriving DecidableEq, Repr

structure VolumeSnapshotRestoreSpecModel where
  volumeSnapshotMoverBackupref : DMBRef
deriving DecidableEq, Repr

structure VolumeSnapshotRestoreModel where
  name : String
  ns : String
  spec : VolumeSnapshotRestoreSpecModel
  status : VolumeSnapshotRestoreStatusModel
deriving DecidableEq, Repr

/-- Embedding of the mover-restore lookup name in the v1 action (part_001):
the vsr- prefix plus the snapshot's source-claim name. -/
def vsrNameForVS (srcPVCName : String) : String := "vsr-" ++ srcPVCName

/-- Embedding of the statically-bound content name created by the v1 action
(part_001): vsr-vsc- plus the recorded source-claim name. -/
def vsrVSCName (backedUpPVCName : String) : String := "vsr-vsc-" ++ backedUpPVCName

/-- Embedding of the mover-restore request name that the v1beta1
`VolumeSnapshotRestoreItemAction.Execute` looks up: the source hardcodes the
value (flagged with a TODO to change the name) instead of deriving it from
the source-claim name. -/
def vsRestoreDMRLookupName : String := "dmr-mssql-pvc"

/-- Embedding of the content name the v1beta1 action creates: hardcoded in
the source (flagged with a TODO to change the name) instead of the
convention derived from the source-claim name. -/
def dataMoverVSCCreatedName : String := "VSC-DM-test"

/-- The fields of a SnapshotContent object built by either restore action. -/
structure CreatedVSC where
  name : String
  labels : List (String × String)
  deletionPolicy : String
  driver : String
  vsRefKind : String
  vsRefNamespace : String
  vsRefName : String
  sourceSnapshotHandle : Option String
deriving DecidableEq, Repr

/-- Outcome of the v1 VolumeSnapshot restore action: the rewritten snapshot
plus the content it created (none when the snapshot already existed live),
an error, or a panic. -/
inductive VSRestoreV1Result
  | ok (vs : VolumeSnapshotModel) (created : Option CreatedVSC)
  | errored
  | panicked
deriving DecidableEq, Repr

/-- Embedding of the v1 `VolumeSnapshotRestoreItemAction.Execute` (part_001):
derive the vsr- name from the snapshot's source-claim pointer (nil
dereference panics), fetch the mover-restore, and unless a live snapshot of
this name already exists, create a statically-bound content with deletion
policy Retain and rewrite the snapshot's spec and deletion-policy
annotation. -/
def vsRestoreExecuteV1 (hash : String → String) (restoreName : String)
    (getVSR : String → String → Option VolumeSnapshotRestoreModel)
    (moverClientOk clientsOk vsExists createOk : Bool)
    (vs : VolumeSnapshotModel) : VSRestoreV1Result :=
  if moverClientOk then
    match vs.spec.source.persistentVolumeClaimName with
    | none => .panicked
    | some srcPVC =>
      match getVSR vs.ns (vsrNameForVS srcPVC) with
      | none => .errored
      | some vsr =>
        if clientsOk then
          if vsExists then .ok vs none
          else
            match (vs.annotations.getD []).lookup csiDriverNameAnnKey with
            | none => .errored
            | some csiDriverName =>
              if createOk then
                .ok
                  { vs with
                    spec := resetVolumeSnapshotSpecForRestore vs.spec
                      (vsrVSCName vsr.spec.volumeSnapshotMoverBackupref.backedUpPVCData.name)
                    annotations := resetVolumeSnapshotAnnotations vs.annotations }
                  (some
                    { name := vsrVSCName vsr.spec.volumeSnapshotMoverBackupref.backedUpPVCData.name
                      labels := [(restoreNameLabel, getValidName hash restoreName)]
                      deletionPolicy := deletionPolicyRetain
                      driver := csiDriverName
                      vsRefKind := "VolumeSnapshot"
                      vsRefNamespace := vs.ns
                      vsRefName := vs.name
                      sourceSnapshotHandle := some vsr.status.snapshotHandle })
              else .errored
        else .errored
  else .errored

structure VolSyncVSStatus where
  boundVolumeSnapshotContentName : Option String
deriving DecidableEq, Repr

structure VolSyncVS where
  name : String
  ns : String
  status : Option VolSyncVSStatus
deriving DecidableEq, Repr

structure VolSyncVSCStatus where
  snapshotHandle : Option String
deriving DecidableEq, Repr

structure VolSyncVSC where
  name : String
  status : Option VolSyncVSCStatus
deriving DecidableEq, Repr

/-- Outcome of the v1beta1 VolumeSnapshot restore action: the content it
created (the action returns an empty output, so the snapshot itself is not
part of the result), an error, or a panic. -/
inductive VSRestoreBetaResult
  | ok (created : CreatedVSC)
  | errored
  | panicked
deriving DecidableEq, Repr

/-- Embedding of the v1beta1 `VolumeSnapshotRestoreItemAction.Execute`
(internal/restore/volumesnapshot_action.go), with `util.GetVolSyncSnapContent`
inlined at its single call site: fetch the hardcoded mover-restore name, fetch
the replication destination derived from its name, resolve the
mover-produced content via the latest-image snapshot (nil dereferences
panic), then create a content named by the hardcoded value whose deletion
policy is read from the snapshot's deletion-policy annotation, defaulting to
Retain when the annotation is absent. -/
def vsRestoreExecuteBeta (hash : String → String) (restoreName : String)
    (getDMR : String → String → Option DataMoverRestore)
    (getRepDest : String → String → Option ReplicationDestination)
    (getVS : String → String → Option VolSyncVS)
    (getVSC : String → Option VolSyncVSC)
    (dmClientOk rdClientOk volsyncClientsOk clientsOk createOk : Bool)
    (vs : VolumeSnapshotModel) : VSRestoreBetaResult :=
  if dmClientOk then
    match getDMR vs.ns vsRestoreDMRLookupName with
    | none => .errored
    | some dmr =>
      if rdClientOk then
        match getRepDest dmr.spec.protectedNamespace (dmr.name ++ "-rep-dest") with
        | none => .errored
        | some repDestination =>
          if volsyncClientsOk then
            match repDestination.status with
            | none => .panicked
            | some rdStatus =>
              match rdStatus.latestImage with
              | none => .panicked
              | some li =>
                match getVS dmr.spec.protectedNamespace li.name with
                | none => .errored
                | some vsVolSync =>
                  match vsVolSync.status with
                  | none => .panicked
                  | some vsStatus =>
                    match vsStatus.boundVolumeSnapshotContentName with
                    | none => .panicked
                    | some vscName =>
                      match getVSC vscName with
                      | none => .errored
                      | some volSyncVSC =>
                        if clientsOk then
                          match volSyncVSC.status with
                          | none => .panicked
                          | some vscStatus =>
                            match vscStatus.snapshotHandle with
                            | none => .panicked
                            | some _ =>
                              match (vs.annotations.getD []).lookup csiDriverNameAnnKey with
                              | none => .errored
                              | some csiDriverName =>
                                if createOk then
                                  .ok
                                    { name := dataMoverVSCCreatedName
                                      labels := [(restoreNameLabel, getValidName hash restoreName)]
                                      deletionPolicy :=
                                        ((vs.annotations.getD []).lookup
                                          csiVSCDeletionPolicyKey).getD deletionPolicyRetain
                                      driver := csiDriverName
                                      vsRefKind := "VolumeSnapshot"
                                      vsRefNamespace := dmr.spec.protectedNamespace
                                      vsRefName := li.name
                                      sourceSnapshotHandle := vscStatus.snapshotHandle }
                                else .errored
                        else .errored
          else .errored
      else .errored
  else .errored

/-- C5 witness inputs: a claim carrying one internal and one user annotation,
with a completed mover-restore chain recorded in the oracles. -/
def c5pvc : PersistentVolumeClaim :=
  { name := "pvc-a"
    ns := "ns-a"
    annotations := some [(annBindCompleted, "yes"), ("keep-me", "v"), (annSelectedNode, "n1")]
    spec := { volumeName := "pv-1", dataSource := none, requests := some [(resourceStorage, 5)] } }

def c5dmr : DataMoverRestore :=
  { name := "dmr-pvc-a"
    ns := "ns-a"
    spec :=
      { resticSecretRefName := "restic-secret"
        dataMoverBackupref :=
          { backedUpPVCData := { name := "pvc-a", size := "8" }
            resticRepository := "repo" }
        protectedNamespace := "prot-ns" } }

def c5rd : ReplicationDestination :=
  { name := "dmr-mssql-pvc-rep-dest"
    spec := { trigger := some { manual := "t1" } }
    status :=
      some
        { lastSyncTime := some "t"
          lastManualSync := "t1"
          latestImage := some { name := "volsync-snap-1" } } }

def c5getDMR : String → String → Option DataMoverRestore := fun ns n =>
  if ns == "ns-a" && n == "dmr-pvc-a" then some c5dmr else none

def c5getRepDest : String → String → Option ReplicationDestination := fun ns n =>
  if ns == "prot-ns" && n == pvcRepDestLookupName then some c5rd else none

def c5parse : String → Option Int := fun s => if s == "8" then some 8 else none

def c5out : PersistentVolumeClaim :=
  { name := "pvc-a"
    ns := "ns-a"
    annotations := some [("keep-me", "v")]
    spec :=
      { volumeName := ""
        dataSource :=
          some { apiGroup := some snapshotAPIGroup, kind := "VolumeSnapshot",
                 name := "volsync-snap-1" }
        requests := some [(resourceStorage, 8)] } }

/-- C5 witness: on the concrete claim the rewrite strips the internal
annotations, keeps the user annotation, clears the volume name, and sources
from the resolved snapshot. -/
theorem pvcRestore_rewrite_witness :
    pvcRestoreExecute c5getDMR c5getRepDest c5parse [] true true c5pvc =
      PVCRestoreResult.ok c5out ∧
    (c5out.annotations.getD []).lookup annBindCompleted = none ∧
    (c5out.annotations.getD []).lookup "keep-me" = (c5pvc.annotations.getD []).lookup "keep-me" ∧
    c5out.spec.volumeName = "" := by
  have hrun : pvcRestoreExecute c5getDMR c5getRepDest c5parse [] true true c5pvc =
      PVCRestoreResult.ok c5out := by rfl
  have h := pvcRestore_rewrite c5getDMR c5getRepDest c5parse [] true true c5pvc c5out hrun
  exact ⟨hrun, h.1.1, h.2.1 "keep-me" (by decide), h.2.2.1⟩

/-- C7: the naming code evaluated at the source-claim name data-pvc.  The
dmr-, vsr- and vsr-vsc- conventions are computed as the spec states, but the
PVC rewrite queries the replication destination under a hardcoded name, the
v1beta1 snapshot action queries the mover-restore under a hardcoded name,
and the content it creates carries a hardcoded name, each diverging from the
convention the spec requires for every claim name. -/
theorem naming_convention_hardcoded_cex :
    dataMoverRestoreNameForPVC "data-pvc" = "dmr-data-pvc" ∧
    vsrNameForVS "data-pvc" = "vsr-data-pvc" ∧
    vsrVSCName "data-pvc" = "vsr-vsc-data-pvc" ∧
    pvcRepDestLookupName ≠ dataMoverRestoreNameForPVC "data-pvc" ++ "-rep-dest" ∧
    vsRestoreDMRLookupName ≠ dataMoverRestoreNameForPVC "data-pvc" ∧
    dataMoverVSCCreatedName ≠ vsrVSCName "data-pvc" := by
  refine ⟨rfl, rfl, rfl, ?_, ?_, ?_⟩ <;> decide

/-- C8 counterexample inputs: a snapshot whose deletion-policy annotation
says Delete, with a fully resolved mover chain. -/
def c8vs : VolumeSnapshotModel :=
  { name := "vs-1"
    ns := "ns-a"
    annotations := some [(csiDriverNameAnnKey, "csi.example.driver"),
      (csiVSCDeletionPolicyKey, deletionPolicyDelete)]
    spec :=
      { source :=
          { persistentVolumeClaimName := some "data-pvc"
            volumeSnapshotContentName := none } } }

def c8dmr : DataMoverRestore :=
  { name := "dmr-mssql-pvc"
    ns := "ns-a"
    spec :=
      { resticSecretRefName := "restic-secret"
        dataMoverBackupref :=
          { backedUpPVCData := { name := "data-pvc", size := "8" }
            resticRepository := "repo" }
        protectedNamespace := "prot-ns" } }

def c8getDMR : String → String → Option DataMoverRestore := fun ns n =>
  if ns == "ns-a" && n == "dmr-mssql-pvc" then some c8dmr else none

def c8rd : ReplicationDestination :=
  { name := "dmr-mssql-pvc-rep-dest"
    spec := { trigger := some { manual := "t1" } }
    status :=
      some
        { lastSyncTime := some "t"
          lastManualSync := "t1"
          latestImage := some { name := "volsync-snap" } } }

def c8getRepDest : String → String → Option ReplicationDestination := fun ns n =>
  if ns == "prot-ns" && n == "dmr-mssql-pvc-rep-dest" then some c8rd else none

def c8getVS : String → String → Option VolSyncVS := fun ns n =>
  if ns == "prot-ns" && n == "volsync-snap" then
    some { name := "volsync-snap"
           ns := "prot-ns"
           status := some { boundVolumeSnapshotContentName := some "volsync-vsc" } }
  else none

def c8getVSC : String → Option VolSyncVSC := fun n =>
  if n == "volsync-vsc" then
    some { name := "volsync-vsc", status := some { snapshotHandle := some "handle-x" } }
  else none

/-- C8 counterexample: the v1beta1 rewriter creates a SnapshotContent whose
deletion policy is Delete, copied from the restored snapshot's
deletion-policy annotation, so the created content does not carry Retain
regardless of annotations, and the snapshot's annotation is not rewritten
(the action returns an empty output). -/
theorem staticRewriter_retain_cex :
    vsRestoreExecuteBeta (fun _ => "") "restore-1" c8getDMR c8getRepDest c8getVS c8getVSC
        true true true true true c8vs =
      VSRestoreBetaResult.ok
        { name := dataMoverVSCCreatedName
          labels := [(restoreNameLabel, "restore-1")]
          deletionPolicy := deletionPolicyDelete
          driver := "csi.example.driver"
          vsRefKind := "VolumeSnapshot"
          vsRefNamespace := "prot-ns"
          vsRefName := "volsync-snap"
          sourceSnapshotHandle := some "handle-x" } ∧
    deletionPolicyDelete ≠ deletionPolicyRetain := by
  exact ⟨by rfl, by decide⟩

/-- C8 amended: the v1 rewriter always sets deletion policy Retain on the
content it creates and forces the snapshot's deletion-policy annotation to
Retain, while the v1beta1 rewriter copies the created content's deletion
policy from the snapshot's deletion-policy annotation, defaulting to Retain
only when that annotation is absent. -/
theorem staticRewriter_retain_amended :
    (∀ (hash : String → String) (restoreName : String)
        (getVSR : String → String → Option VolumeSnapshotRestoreModel)
        (moverClientOk clientsOk vsExists createOk : Bool)
        (vs out : VolumeSnapshotModel) (created : CreatedVSC),
      vsRestoreExecuteV1 hash restoreName getVSR moverClientOk clientsOk vsExists createOk vs =
        .ok out (some created) →
      created.deletionPolicy = deletionPolicyRetain ∧
      (out.annotations.getD []).lookup csiVSCDeletionPolicyKey = some deletionPolicyRetain) ∧
    (∀ (hash : String → String) (restoreName : String)
        (getDMR : String → String → Option DataMoverRestore)
        (getRepDest : String → String → Option ReplicationDestination)
        (getVS : String → String → Option VolSyncVS)
        (getVSC : String → Option VolSyncVSC)
        (b1 b2 b3 b4 b5 : Bool) (vs : VolumeSnapshotModel) (created : CreatedVSC),
      vsRestoreExecuteBeta hash restoreName getDMR getRepDest getVS getVSC b1 b2 b3 b4 b5 vs =
        .ok created →
      created.deletionPolicy =
        ((vs.annotations.getD []).lookup csiVSCDeletionPolicyKey).getD deletionPolicyRetain) := by
  constructor
  · intro hash restoreName getVSR moverClientOk clientsOk vsExists createOk vs out created h
    unfold vsRestoreExecuteV1 at h
    cases moverClientOk with
    | false => simp at h
    | true =>
      rw [if_pos rfl] at h
      cases hsrc : vs.spec.source.persistentVolumeClaimName with
      | none => simp [hsrc] at h
      | some srcPVC =>
        simp only [hsrc] at h
        cases hvsr : getVSR vs.ns (vsrNameForVS srcPVC) with
        | none => simp [hvsr] at h
        | some vsr =>
          simp only [hvsr] at h
          cases clientsOk with
          | false => simp at h
          | true =>
            rw [if_pos rfl] at h
            cases vsExists with
            | true =>
              rw [if_pos rfl] at h
              simp at h
            | false =>
              rw [if_neg Bool.false_ne_true] at h
              cases hdrv : (vs.annotations.getD []).lookup csiDriverNameAnnKey with
              | none => simp [hdrv] at h
              | some csiDriverName =>
                simp only [hdrv] at h
                cases createOk with
                | false => simp at h
                | true =>
                  rw [if_pos rfl] at h
                  simp only [VSRestoreV1Result.ok.injEq, Option.some.injEq] at h
                  obtain ⟨hout, hcreated⟩ := h
                  subst hout
                  subst hcreated
                  refine ⟨rfl, ?_⟩
                  simp only [resetVolumeSnapshotAnnotations, Option.getD_some]
                  exact lookup_setKV _ _ _
  · intro hash restoreName getDMR getRepDest getVS getVSC b1 b2 b3 b4 b5 vs created h
    unfold vsRestoreExecuteBeta at h
    cases b1 with
    | false => simp at h
    | true =>
      rw [if_pos rfl] at h
      cases hdmr : getDMR vs.ns vsRestoreDMRLookupName with
      | none => simp [hdmr] at h
      | some dmr =>
        simp only [hdmr] at h
        cases b2 with
        | false => simp at h
        | true =>
          rw [if_pos rfl] at h
          cases hrd : getRepDest dmr.spec.protectedNamespace (dmr.name ++ "-rep-dest") with
          | none => simp [hrd] at h
          | some repDestination =>
            simp only [hrd] at h
            cases b3 with
            | false => simp at h
            | true =>
              rw [if_pos rfl] at h
              cases hrds : repDestination.status with
              | none => simp [hrds] at h
              | some rdStatus =>
                simp only [hrds] at h
                cases hli : rdStatus.latestImage with
                | none => simp [hli] at h
                | some li =>
                  simp only [hli] at h
                  cases hvs : getVS dmr.spec.protectedNamespace li.name with
                  | none => simp [hvs] at h
                  | some vsVolSync =>
                    simp only [hvs] at h
                    cases hvss : vsVolSync.status with
                    | none => simp [hvss] at h
                    | some vsStatus =>
                      simp only [hvss] at h
                      cases hbound : vsStatus.boundVolumeSnapshotContentName with
                      | none => simp [hbound] at h
                      | some vscName =>
                        simp only [hbound] at h
                        cases hvsc : getVSC vscName with
                        | none => simp [hvsc] at h
                        | some volSyncVSC =>
                          simp only [hvsc] at h
                          cases b4 with
                          | false => simp at h
                          | true =>
                            rw [if_pos rfl] at h
                            cases hvscs : volSyncVSC.status with
                            | none => simp [hvscs] at h
                            | some vscStatus =>
                              simp only [hvscs] at h
                              cases hh : vscStatus.snapshotHandle with
                              | none => simp [hh] at h
                              | some handle =>
                                simp only [hh] at h
                                cases hdrv : (vs.annotations.getD []).lookup csiDriverNameAnnKey with
                                | none => simp [hdrv] at h
                                | some csiDriverName =>
                                  simp only [hdrv] at h
                                  cases b5 with
                                  | false => simp at h
                                  | true =>
                                    rw [if_pos rfl] at h
                                    simp only [VSRestoreBetaResult.ok.injEq] at h
                                    subst h
                                    rfl

/-- C8 amended witness inputs for the v1 rewriter. -/
def c8vsV1 : VolumeSnapshotModel :=
  { name := "vs-1"
    ns := "ns-a"
    annotations := some [(csiDriverNameAnnKey, "csi.example.driver")]
    spec :=
      { source :=
          { persistentVolumeClaimName := some "data-pvc"
            volumeSnapshotContentName := none } } }

def c8vsr : VolumeSnapshotRestoreModel :=
  { name := "vsr-data-pvc"
    ns := "ns-a"
    spec :=
      { volumeSnapshotMoverBackupref :=
          { backedUpPVCData := { name := "data-pvc", size := "8" }
            resticRepository := "repo" } }
    status := { snapshotHandle := "hdl" } }

def c8getVSR : String → String → Option VolumeSnapshotRestoreModel := fun ns n =>
  if ns == "ns-a" && n == "vsr-data-pvc" then some c8vsr else none

/-- C8 amended witness: concrete runs of both rewriters, the v1 one yielding
Retain and forcing the annotation, the v1beta1 one with no deletion-policy
annotation defaulting to Retain. -/
theorem staticRewriter_retain_amended_witness :
    (∃ out created,
      vsRestoreExecuteV1 (fun _ => "") "restore-1" c8getVSR true true false true c8vsV1 =
        .ok out (some created) ∧
      created.deletionPolicy = deletionPolicyRetain ∧
      (out.annotations.getD []).lookup csiVSCDeletionPolicyKey = some deletionPolicyRetain) ∧
    (∃ created,
      vsRestoreExecuteBeta (fun _ => "") "restore-1" c8getDMR c8getRepDest c8getVS c8getVSC
          true true true true true c8vsV1 =
        .ok created ∧
      created.deletionPolicy = deletionPolicyRetain) := by
  constructor
  · have hrun : vsRestoreExecuteV1 (fun _ => "") "restore-1" c8getVSR true true false true c8vsV1 =
        .ok
          { name := "vs-1", ns := "ns-a",
            annotations := some [(csiDriverNameAnnKey, "csi.example.driver"),
              (csiVSCDeletionPolicyKey, deletionPolicyRetain)],
            spec := { source :=
              { persistentVolumeClaimName := none,
                volumeSnapshotContentName := some "vsr-vsc-data-pvc" } } }
          (some
            { name := "vsr-vsc-data-pvc"
              labels := [(restoreNameLabel, "restore-1")]
              deletionPolicy := deletionPolicyRetain
              driver := "csi.example.driver"
              vsRefKind := "VolumeSnapshot"
              vsRefNamespace := "ns-a"
              vsRefName := "vs-1"
              sourceSnapshotHandle := some "hdl" }) := by rfl
    refine ⟨_, _, hrun, ?_⟩
    exact (staticRewriter_retain_amended.1 (fun _ => "") "restore-1" c8getVSR
      true true false true c8vsV1 _ _ hrun)
  · have hrun : vsRestoreExecuteBeta (fun _ => "") "restore-1" c8getDMR c8getRepDest c8getVS
        c8getVSC true true true true true c8vsV1 =
        .ok
          { name := dataMoverVSCCreatedName
            labels := [(restoreNameLabel, "restore-1")]
            deletionPolicy := deletionPolicyRetain
            driver := "csi.example.driver"
            vsRefKind := "VolumeSnapshot"
            vsRefNamespace := "prot-ns"
            vsRefName := "volsync-snap"
            sourceSnapshotHandle := some "handle-x" } := by rfl
    refine ⟨_, hrun, ?_⟩
    have h := staticRewriter_retain_amended.2 (fun _ => "") "restore-1" c8getDMR c8getRepDest
      c8getVS c8getVSC true true true true true c8vsV1 _ hrun
    exact h

/-! ## Backup Orchestrator (`VolumeSnapshotContentBackupItemAction`) -/

/-- Modelled from the spec: the snapshot-deletion secret name annotation key
(`util.PrefixedSnapshotterSecretNameKey`); the util constants file is not
among the sources and the claims treat the key as opaque. -/
def snapshotterSecretNameKey : String :=
  "snapshot.storage.kubernetes.io/deletion-secret-name"

/-- Modelled from the spec: the snapshot-deletion secret namespace annotation
key (`util.PrefixedSnapshotterSecretNamespaceKey`); the util constants file
is not among the sources and the claims treat the key as opaque. -/
def snapshotterSecretNamespaceKey : String :=
  "snapshot.storage.kubernetes.io/deletion-secret-namespace"

/-- The fields of a v1beta1 VolumeSnapshotContent that the backup action
reads: its name, annotations, and the snapshot back-reference. -/
structure VSCBackupItem where
  name : String
  annotations : Option (List (String × String))
  vsRefName : String
  vsRefNamespace : String
deriving DecidableEq, Repr

/-- Embedding of `util.IsVolumeSnapshotContentHasDeleteSecret`: both secret
annotation keys must be present. -/
def isVolumeSnapshotContentHasDeleteSecret (snapCont : VSCBackupItem) : Bool :=
  ((snapCont.annotations.getD []).lookup snapshotterSecretNameKey).isSome &&
  ((snapCont.annotations.getD []).lookup snapshotterSecretNamespaceKey).isSome

/-- A mover backup request (VolumeSnapshotBackup) as stored in the cluster:
its key, the recorded SnapshotContent reference, and the work namespace. -/
structure VolumeSnapshotBackupModel where
  name : String
  ns : String
  specVSCName : String
  protectedNamespace : String
deriving DecidableEq, Repr

/-- The cluster's stock of mover backup requests. -/
abbrev VSBState := List VolumeSnapshotBackupModel

/-- Typed get of a mover backup request by namespace and name. -/
def getVSB (s : VSBState) (ns name : String) : Option VolumeSnapshotBackupModel :=
  s.find? (fun v => v.ns == ns && v.name == name)

/-- Modelled from the spec: `util.DoesVolumeSnapshotBackupExistForVSC` is not
among the sources (only its caller is).  Per spec section 4.3 the guard
checks whether a mover backup request already exists whose recorded
SnapshotContent reference equals the content's name.  The model mirrors the
in-source analogue `util.DoesDataMoverBackupExistForVSC` (part_003): fetch
the deterministically named request and compare its non-empty content
reference with the content's name, under the vsb- naming and namespace the
caller uses when creating requests. -/
def doesVolumeSnapshotBackupExistForVSC (s : VSBState) (snapCont : VSCBackupItem) : Bool :=
  match getVSB s snapCont.vsRefNamespace ("vsb-" ++ snapCont.vsRefName) with
  | none => false
  | some vsb => decide (0 < vsb.specVSCName.length) && vsb.specVSCName == snapCont.name

/-- An additional-item entry returned to the backup pipeline. -/
structure ResourceIdentifier where
  group : String
  resource : String
  name : String
  ns : String
deriving DecidableEq, Repr

/-- Embedding of `VolumeSnapshotContentBackupItemAction.Execute`: craft the
vsb- request for the content, create it only when the existence check finds
none, and return the deletion secret (when annotated) plus the request
itself as additional items.  The create is modelled with cluster semantics:
creating a request whose (namespace, name) key is already occupied fails
with AlreadyExists, in which case the action returns the error (none). -/
def vscBackupExecute (s : VSBState) (snapCont : VSCBackupItem) (backupNamespace : String) :
    Option (VSBState × Bool × List ResourceIdentifier) :=
  let vsb : VolumeSnapshotBackupModel :=
    { name := "vsb-" ++ snapCont.vsRefName
      ns := snapCont.vsRefNamespace
      specVSCName := snapCont.name
      protectedNamespace := backupNamespace }
  let createStep : Option (VSBState × Bool) :=
    if doesVolumeSnapshotBackupExistForVSC s snapCont then some (s, false)
    else if (getVSB s vsb.ns vsb.name).isSome then none
    else some (s ++ [vsb], true)
  match createStep with
  | none => none
  | some (s2, created) =>
    let secretItems : List ResourceIdentifier :=
      if isVolumeSnapshotContentHasDeleteSecret snapCont then
        [{ group := ""
           resource := "secrets"
           name := lookupD (snapCont.annotations.getD []) snapshotterSecretNameKey
           ns := lookupD (snapCont.annotations.getD []) snapshotterSecretNamespaceKey }]
      else []
    some (s2, created,
      secretItems ++
        [{ group := "datamover.oadp.openshift.io"
           resource := "volumesnapshotbackup"
           name := vsb.name
           ns := vsb.ns }])

/-! ## Restore Orchestrator (`DataMoverRestoreItemAction`, `util.IsDataMoverRestoreCompleted`) -/

/-- Modelled from the spec: the fixed annotation key for the recorded
source-claim name (`util.DatamoverSourcePVCName`); the util constants file
is not among the sources and the claims treat the key as opaque. -/
def datamoverSourcePVCNameKey : String := "datamover.oadp.openshift.io/source-pvc-name"

/-- Modelled from the spec: the fixed annotation key for the recorded
source-claim size (`util.DatamoverSourcePVCSize`). -/
def datamoverSourcePVCSizeKey : String := "datamover.oadp.openshift.io/source-pvc-size"

/-- Modelled from the spec: the fixed annotation key for the mover repository
identifier (`util.DatamoverResticRepository`). -/
def datamoverResticRepositoryKey : String := "datamover.oadp.openshift.io/restic-repository"

/-- The number of condition invocations `wait.PollImmediate` performs within
the five-minute timeout at five-second intervals: one immediate call plus
one per tick. -/
def pollAttempts : Nat := 61

/-- Outcome of one invocation of a poll condition, as the Go condition
function reports it: done, retry (false, nil), a short-circuiting error, or
a runtime panic. -/
inductive CondOutcome
  | done
  | notYet
  | failed
  | panicked
deriving DecidableEq, Repr

/-- Result of a whole poll: success or a condition error at a given attempt
index, a panic, or timeout after the attempt budget. -/
inductive PollOutcome
  | succeeded (i : Nat)
  | errored (i : Nat)
  | panicked (i : Nat)
  | timedOut
deriving DecidableEq, Repr

/-- Embedding of `wait.PollImmediate`: run the condition immediately and then
once per tick until it reports done or an error, or the attempt budget is
exhausted. -/
def pollRun (cond : Nat → CondOutcome) : Nat → Nat → PollOutcome
  | 0, _ => .timedOut
  | fuel + 1, i =>
    match cond i with
    | .done => .succeeded i
    | .failed => .errored i
    | .panicked => .panicked i
    | .notYet => pollRun cond fuel (i + 1)

/-- The cluster as the poll observes it over time: what a get of a
mover-restore or replication destination returns at each attempt index. -/
structure RestoreClusterTrace where
  dmrAt : Nat → String → String → Option DataMoverRestore
  repDestAt : Nat → String → String → Option ReplicationDestination

/-- Embedding of the poll condition inside `util.IsDataMoverRestoreCompleted`:
failing to fetch the mover-restore short-circuits the poll with an error;
absence of the replication destination named request-name-rep-dest in the
protected namespace retries; completion needs a non-nil status with a
non-nil lastSyncTime whose last observed manual sync equals the manual
trigger (a nil trigger dereference panics). -/
def isdmrCompletedCond (tr : RestoreClusterTrace) (datamoverNS dmrName protectedNS : String)
    (i : Nat) : CondOutcome :=
  match tr.dmrAt i datamoverNS dmrName with
  | none => .failed
  | some dmr =>
    match tr.repDestAt i protectedNS (dmr.name ++ "-rep-dest") with
    | none => .notYet
    | some repDestination =>
      match repDestination.status with
      | none => .notYet
      | some st =>
        match st.lastSyncTime with
        | none => .notYet
        | some _ =>
          match repDestination.spec.trigger with
          | none => .panicked
          | some trg => if trg.manual == st.lastManualSync then .done else .notYet

/-- Embedding of `util.IsDataMoverRestoreCompleted`: poll the condition with
the five-minute budget. -/
def isDataMoverRestoreCompleted (tr : RestoreClusterTrace)
    (datamoverNS dmrName protectedNS : String) : PollOutcome :=
  pollRun (isdmrCompletedCond tr datamoverNS dmrName protectedNS) pollAttempts 0

/-- The backed-up mover backup request as the restore action reads it:
completion data re-encoded in annotations, plus the protected namespace. -/
structure DataMoverBackupModel where
  name : String
  ns : String
  annotations : Option (List (String × String))
  specProtectedNamespace : String
deriving DecidableEq, Repr

/-- Outcome of the mover-restore item action: success carrying the returned
output's updated item (the source always returns an empty output), an
error, or a panic propagated from the poll. -/
inductive DMBRestoreOutcome
  | completed (updatedItem : Option DataMoverBackupModel)
  | failed
  | panicked
deriving DecidableEq, Repr

/-- The mover-restore request `DataMoverRestoreItemAction.Execute` builds
from the backed-up request's annotations: named dmr- plus the recorded
source-claim name, in the backed-up object's namespace, embedding the
recorded size and repository and the protected namespace. -/
def dmrFromDMB (dmb : DataMoverBackupModel) : DataMoverRestore :=
  { name := "dmr-" ++ lookupD (dmb.annotations.getD []) datamoverSourcePVCNameKey
    ns := dmb.ns
    spec :=
      { resticSecretRefName := "restic-secret"
        dataMoverBackupref :=
          { backedUpPVCData :=
              { name := lookupD (dmb.annotations.getD []) datamoverSourcePVCNameKey
                size := lookupD (dmb.annotations.getD []) datamoverSourcePVCSizeKey }
            resticRepository :=
              lookupD (dmb.annotations.getD []) datamoverResticRepositoryKey }
        protectedNamespace := dmb.specProtectedNamespace } }

/-- Embedding of `DataMoverRestoreItemAction.Execute` (part_000, the variant
that blocks on completion): build the mover-restore request, create it,
block on `IsDataMoverRestoreCompleted`, and on success return an empty
output.  The second component exposes the request the action created. -/
def dataMoverRestoreExecute (tr : RestoreClusterTrace) (dmb : DataMoverBackupModel)
    (clientOk createOk : Bool) : DMBRestoreOutcome × Option DataMoverRestore :=
  if clientOk then
    if createOk then
      match isDataMoverRestoreCompleted tr (dmrFromDMB dmb).ns (dmrFromDMB dmb).name
          (dmrFromDMB dmb).spec.protectedNamespace with
      | .succeeded _ => (.completed none, some (dmrFromDMB dmb))
      | .panicked _ => (.panicked, some (dmrFromDMB dmb))
      | .errored _ => (.failed, some (dmrFromDMB dmb))
      | .timedOut => (.failed, some (dmrFromDMB dmb))
    else (.failed, some (dmrFromDMB dmb))
  else (.failed, none)

theorem string_length_pos (s : String) (h : s ≠ "") : 0 < s.length := by
  cases s with
  | mk data =>
    cases data with
    | nil => exact absurd rfl h
    | cons c cs => simp [String.length]

theorem getVSB_append_self (s : VSBState) (v : VolumeSnapshotBackupModel)
    (h : getVSB s v.ns v.name = none) : getVSB (s ++ [v]) v.ns v.name = some v := by
  unfold getVSB at h ⊢
  rw [List.find?_append, h]
  simp [List.find?]

/-- C6: the Backup Orchestrator issues a create exactly when the existence
check finds no mover backup request recording the content's name, and a
second invocation after a successful first one issues no create and leaves
the request stock unchanged, so at most one request is created per content. -/
theorem backupOrchestrator_idempotent (s : VSBState) (snapCont : VSCBackupItem)
    (backupNamespace : String) (hname : snapCont.name ≠ "") :
    (∀ s2 created items,
      vscBackupExecute s snapCont backupNamespace = some (s2, created, items) →
      (created = true ↔ doesVolumeSnapshotBackupExistForVSC s snapCont = false)) ∧
    (∀ s2 created items,
      vscBackupExecute s snapCont backupNamespace = some (s2, created, items) →
      ∃ items2, vscBackupExecute s2 snapCont backupNamespace = some (s2, false, items2)) := by
  have hvsb : ∀ s3 : VSBState, doesVolumeSnapshotBackupExistForVSC s3 snapCont = true →
      vscBackupExecute s3 snapCont backupNamespace =
        some (s3, false,
          (if isVolumeSnapshotContentHasDeleteSecret snapCont then
            [{ group := ""
               resource := "secrets"
               name := lookupD (snapCont.annotations.getD []) snapshotterSecretNameKey
               ns := lookupD (snapCont.annotations.getD []) snapshotterSecretNamespaceKey }]
          else []) ++
            [{ group := "datamover.oadp.openshift.io"
               resource := "volumesnapshotbackup"
               name := "vsb-" ++ snapCont.vsRefName
               ns := snapCont.vsRefNamespace }]) := by
    intro s3 hcheck
    simp only [vscBackupExecute, hcheck, if_true]
  constructor
  · intro s2 created items h
    by_cases hcheck : doesVolumeSnapshotBackupExistForVSC s snapCont = true
    · rw [hvsb s hcheck] at h
      simp only [Option.some.injEq, Prod.mk.injEq] at h
      rw [hcheck, ← h.2.1]
      simp
    · have hcheck2 : doesVolumeSnapshotBackupExistForVSC s snapCont = false :=
        Bool.eq_false_iff.mpr hcheck
      simp only [vscBackupExecute, hcheck2, Bool.false_eq_true, if_false] at h
      cases hkey : (getVSB s snapCont.vsRefNamespace ("vsb-" ++ snapCont.vsRefName)).isSome with
      | true => rw [hkey] at h; simp at h
      | false =>
        rw [hkey] at h
        simp only [Bool.false_eq_true, if_false, Option.some.injEq, Prod.mk.injEq] at h
        rw [hcheck2, ← h.2.1]
        simp
  · intro s2 created items h
    by_cases hcheck : doesVolumeSnapshotBackupExistForVSC s snapCont = true
    · rw [hvsb s hcheck] at h
      simp only [Option.some.injEq, Prod.mk.injEq] at h
      obtain ⟨hs2, _, _⟩ := h
      subst hs2
      exact ⟨_, hvsb s hcheck⟩
    · have hcheck2 : doesVolumeSnapshotBackupExistForVSC s snapCont = false :=
        Bool.eq_false_iff.mpr hcheck
      simp only [vscBackupExecute, hcheck2, Bool.false_eq_true, if_false] at h
      cases hkey : (getVSB s snapCont.vsRefNamespace ("vsb-" ++ snapCont.vsRefName)).isSome with
      | true => rw [hkey] at h; simp at h
      | false =>
        rw [hkey] at h
        simp only [Bool.false_eq_true, if_false, Option.some.injEq, Prod.mk.injEq] at h
        obtain ⟨hs2, _, _⟩ := h
        have hnone : getVSB s snapCont.vsRefNamespace ("vsb-" ++ snapCont.vsRefName) = none := by
          cases hg : getVSB s snapCont.vsRefNamespace ("vsb-" ++ snapCont.vsRefName) with
          | none => rfl
          | some v => rw [hg] at hkey; simp at hkey
        have happ := getVSB_append_self s
          { name := "vsb-" ++ snapCont.vsRefName
            ns := snapCont.vsRefNamespace
            specVSCName := snapCont.name
            protectedNamespace := backupNamespace } hnone
        have hcheck3 : doesVolumeSnapshotBackupExistForVSC s2 snapCont = true := by
          rw [← hs2]
          unfold doesVolumeSnapshotBackupExistForVSC
          rw [happ]
          simp only [Bool.and_eq_true, decide_eq_true_eq, beq_iff_eq]
          exact ⟨string_length_pos snapCont.name hname, trivial⟩
        exact ⟨_, hvsb s2 hcheck3⟩

/-- C6 witness input: a content with no pre-existing request. -/
def c6snapCont : VSCBackupItem :=
  { name := "vsc-x", annotations := none, vsRefName := "vs-x", vsRefNamespace := "ns-a" }

/-- C6 witness: on an empty cluster the first invocation creates a request;
the second invocation on the resulting state issues no create and leaves the
state unchanged. -/
theorem backupOrchestrator_idempotent_witness :
    ∃ s2 items items2,
      vscBackupExecute [] c6snapCont "velero" = some (s2, true, items) ∧
      vscBackupExecute s2 c6snapCont "velero" = some (s2, false, items2) := by
  have h := backupOrchestrator_idempotent [] c6snapCont "velero" (by decide)
  have hrun : vscBackupExecute [] c6snapCont "velero" =
      some ([{ name := "vsb-vs-x", ns := "ns-a", specVSCName := "vsc-x",
               protectedNamespace := "velero" }], true,
        [{ group := "datamover.oadp.openshift.io", resource := "volumesnapshotbackup",
           name := "vsb-vs-x", ns := "ns-a" }]) := by rfl
  obtain ⟨items2, h2⟩ := h.2 _ _ _ hrun
  exact ⟨_, _, items2, hrun, h2⟩

theorem pollRun_succeeded (cond : Nat → CondOutcome) :
    ∀ fuel i j, pollRun cond fuel i = .succeeded j → j < i + fuel ∧ cond j = .done := by
  intro fuel
  induction fuel with
  | zero => intro i j h; simp [pollRun] at h
  | succ fuel ih =>
    intro i j h
    unfold pollRun at h
    cases hc : cond i with
    | done =>
      simp only [hc] at h
      cases h
      exact ⟨by omega, hc⟩
    | failed => simp only [hc] at h; cases h
    | panicked => simp only [hc] at h; cases h
    | notYet =>
      simp only [hc] at h
      obtain ⟨hlt, hdone⟩ := ih (i + 1) j h
      exact ⟨by omega, hdone⟩

theorem isdmrCond_done (tr : RestoreClusterTrace) (datamoverNS dmrName protectedNS : String)
    (i : Nat) (h : isdmrCompletedCond tr datamoverNS dmrName protectedNS i = .done) :
    ∃ d rd st trg,
      tr.dmrAt i datamoverNS dmrName = some d ∧
      tr.repDestAt i protectedNS (d.name ++ "-rep-dest") = some rd ∧
      rd.status = some st ∧ st.lastSyncTime.isSome ∧
      rd.spec.trigger = some trg ∧ trg.manual = st.lastManualSync := by
  unfold isdmrCompletedCond at h
  cases hd : tr.dmrAt i datamoverNS dmrName with
  | none => simp [hd] at h
  | some d =>
    simp only [hd] at h
    cases hrd : tr.repDestAt i protectedNS (d.name ++ "-rep-dest") with
    | none => simp [hrd] at h
    | some rd =>
      simp only [hrd] at h
      cases hst : rd.status with
      | none => simp [hst] at h
      | some st =>
        simp only [hst] at h
        cases hsync : st.lastSyncTime with
        | none => simp [hsync] at h
        | some t =>
          simp only [hsync] at h
          cases htrg : rd.spec.trigger with
          | none => simp [htrg] at h
          | some trg =>
            simp only [htrg] at h
            by_cases heq : (trg.manual == st.lastManualSync) = true
            · exact ⟨d, rd, st, trg, rfl, hrd, hst, by simp [hsync], htrg, beq_iff_eq.mp heq⟩
            · rw [if_neg heq] at h
              cases h

/-- C9: whenever the mover-restore item action completes, it returns an
empty output (no updated item) and exposes the created dmr- request, and at
some attempt within the poll budget the mover-restore was fetched, the
replication destination named request-name-rep-dest existed in the protected
namespace, and its status had a non-nil last sync time whose last observed
manual sync token equalled the manual trigger token. -/
theorem restoreOrchestrator_completion (tr : RestoreClusterTrace) (dmb : DataMoverBackupModel)
    (clientOk createOk : Bool) (out : Option DataMoverBackupModel)
    (h : (dataMoverRestoreExecute tr dmb clientOk createOk).1 = DMBRestoreOutcome.completed out) :
    out = none ∧
    (dataMoverRestoreExecute tr dmb clientOk createOk).2 = some (dmrFromDMB dmb) ∧
    (dmrFromDMB dmb).name =
      "dmr-" ++ lookupD (dmb.annotations.getD []) datamoverSourcePVCNameKey ∧
    ∃ i, i < pollAttempts ∧
      ∃ d rd st trg,
        tr.dmrAt i (dmrFromDMB dmb).ns (dmrFromDMB dmb).name = some d ∧
        tr.repDestAt i (dmrFromDMB dmb).spec.protectedNamespace (d.name ++ "-rep-dest") =
          some rd ∧
        rd.status = some st ∧ st.lastSyncTime.isSome ∧
        rd.spec.trigger = some trg ∧ trg.manual = st.lastManualSync := by
  cases clientOk with
  | false => simp [dataMoverRestoreExecute] at h
  | true =>
    cases createOk with
    | false => simp [dataMoverRestoreExecute] at h
    | true =>
      unfold dataMoverRestoreExecute at h ⊢
      rw [if_pos rfl, if_pos rfl] at h ⊢
      cases hp : isDataMoverRestoreCompleted tr (dmrFromDMB dmb).ns (dmrFromDMB dmb).name
          (dmrFromDMB dmb).spec.protectedNamespace with
      | succeeded i =>
        simp only [hp] at h
        have hout : out = none := by
          cases h
          rfl
        obtain ⟨hlt, hdone⟩ := pollRun_succeeded _ pollAttempts 0 i hp
        obtain ⟨d, rd, st, trg, hd, hrd, hst, hsync, htrg, heq⟩ :=
          isdmrCond_done tr _ _ _ i hdone
        refine ⟨hout, ?_, rfl, i, by omega, d, rd, st, trg, hd, hrd, hst, hsync, htrg, heq⟩
        simp [hp]
      | errored i => simp only [hp] at h; cases h
      | panicked i => simp only [hp] at h; cases h
      | timedOut => simp only [hp] at h; cases h

/-- C9 witness inputs: a backed-up request whose annotations record claim
pvc-x, with a trace on which the chain is complete from the first attempt. -/
def c9dmb : DataMoverBackupModel :=
  { name := "dmb-1"
    ns := "ns-a"
    annotations := some [(datamoverSourcePVCNameKey, "pvc-x"),
      (datamoverSourcePVCSizeKey, "8"), (datamoverResticRepositoryKey, "repo")]
    specProtectedNamespace := "prot-ns" }

def c9rd : ReplicationDestination :=
  { name := "dmr-pvc-x-rep-dest"
    spec := { trigger := some { manual := "tok" } }
    status :=
      some
        { lastSyncTime := some "t"
          lastManualSync := "tok"
          latestImage := some { name := "volsync-snap" } } }

def c9tr : RestoreClusterTrace :=
  { dmrAt := fun _ ns n =>
      if ns == "ns-a" && n == "dmr-pvc-x" then some (dmrFromDMB c9dmb) else none
    repDestAt := fun _ ns n =>
      if ns == "prot-ns" && n == "dmr-pvc-x-rep-dest" then some c9rd else none }

/-- C9 witness: the concrete completed run returns the empty output and the
completion conditions hold within the budget. -/
theorem restoreOrchestrator_completion_witness :
    (dataMoverRestoreExecute c9tr c9dmb true true).1 = DMBRestoreOutcome.completed none ∧
    ∃ i, i < pollAttempts ∧
      ∃ d rd st trg,
        c9tr.dmrAt i (dmrFromDMB c9dmb).ns (dmrFromDMB c9dmb).name = some d ∧
        c9tr.repDestAt i (dmrFromDMB c9dmb).spec.protectedNamespace (d.name ++ "-rep-dest") =
          some rd ∧
        rd.status = some st ∧ st.lastSyncTime.isSome ∧
        rd.spec.trigger = some trg ∧ trg.manual = st.lastManualSync := by
  have hrun : (dataMoverRestoreExecute c9tr c9dmb true true).1 =
      DMBRestoreOutcome.completed none := by rfl
  have h := restoreOrchestrator_completion c9tr c9dmb true true none hrun
  exact ⟨hrun, h.2.2.2⟩

end VeleroCSI
